import Mathlib

/-!
Verification of the derived-metric computations, filters and figure
configuration of the startup-analysis dashboard script EDA.py.

The script loads a processed CSV into a pandas dataframe, parses the three
date columns with to_datetime(errors="coerce"), derives lifespan and
funding-timing columns, and renders a sequence of charts.  We embed the
dataframe as a list of rows, a date as a day number (`Option Int`, `none`
standing for `NaT`), and the derived tables and figure settings as pure
functions of the loaded data and the widget state.  pandas `NaN` results of
date arithmetic are `none`; comparisons against `NaN` are `false`, exactly
as pandas evaluates them in boolean masks.
-/

unseal Rat.inv Rat.mul Rat.add Rat.sub

/-- A row of the processed startups dataframe, after the date columns
`founded_at`, `first_funding_at`, `last_funding_at` have been parsed by
`pd.to_datetime(..., errors="coerce")`.  Dates are day numbers; a missing or
unparsable date (`NaT`) is `none`. -/
structure Row where
  name : String
  status : String
  category : String
  country_code : String
  funding_total_usd : ℚ
  funding_rounds : Nat
  founded_at : Option Int
  first_funding_at : Option Int
  last_funding_at : Option Int
deriving DecidableEq, Repr

/-- `df["lifespan_days"] = (df["last_funding_at"] - df["founded_at"]).dt.days`.
If either date is `NaT` the subtraction gives `NaT` and `.dt.days` gives
`NaN`, modelled as `none`. -/
def Row.lifespan_days (r : Row) : Option Int :=
  match r.last_funding_at, r.founded_at with
  | some l, some f => some (l - f)
  | _, _ => none

/-- `df_timing["days_to_first_funding"] =
(df_timing["first_funding_at"] - df_timing["founded_at"]).dt.days`,
`none` when either date is `NaT`. -/
def Row.days_to_first_funding (r : Row) : Option Int :=
  match r.first_funding_at, r.founded_at with
  | some f, some b => some (f - b)
  | _, _ => none

/-- Number of occurrences of value `c` in a string series. -/
def countVal (xs : List String) (c : String) : Nat :=
  (xs.filter (fun x => x == c)).length

/-- pandas `Series.value_counts()`: one `(value, count)` pair per distinct
value of the series, sorted by count in descending order. -/
def value_counts (xs : List String) : List (String × Nat) :=
  List.insertionSort (fun a b => b.2 ≤ a.2) (xs.dedup.map (fun c => (c, countVal xs c)))

/-- `status_counts = df["status"].value_counts()` (tab "Distribution of
Startup Status"). -/
def status_counts (df : List Row) : List (String × Nat) :=
  value_counts (df.map Row.status)

/-- `category_totals = df["category"].value_counts()` with columns renamed to
`Category`, `Total_Startups`. -/
def category_totals (df : List Row) : List (String × Nat) :=
  value_counts (df.map Row.category)

/-- `operating_counts = df[df["status"] == "operating"]["category"].value_counts()`
with columns renamed to `Category`, `Operating_Count`. -/
def operating_counts (df : List Row) : List (String × Nat) :=
  value_counts ((df.filter (fun r => r.status == "operating")).map Row.category)

/-- A row of `survival_df` after the merge, the `fillna` and the
`Survival_Rate` computation. -/
structure SurvivalRow where
  Category : String
  Total_Startups : Nat
  Operating_Count : Nat
  Survival_Rate : ℚ
deriving DecidableEq, Repr

/-- `survival_df = pd.merge(category_totals, operating_counts, on="Category",
how="left")`, then `Operating_Count.fillna(0)` and
`Survival_Rate = (Operating_Count / Total_Startups) * 100`.  The left merge
keeps one output row per row of `category_totals`; a category absent from
`operating_counts` gets `NaN`, turned into `0` by `fillna`. -/
def survival_df (df : List Row) : List SurvivalRow :=
  (category_totals df).map (fun p =>
    let oc : Nat := (((operating_counts df).find? (fun q => q.1 == p.1)).map Prod.snd).getD 0
    { Category := p.1
      Total_Startups := p.2
      Operating_Count := oc
      Survival_Rate := (oc : ℚ) / (p.2 : ℚ) * 100 })

/-- Number of rows of the dataframe whose category is `c`. -/
def total_startups (df : List Row) (c : String) : Nat :=
  (df.filter (fun r => r.category == c)).length

/-- Number of rows of the dataframe whose category is `c` and whose status is
`"operating"`. -/
def operating_count (df : List Row) (c : String) : Nat :=
  ((df.filter (fun r => r.status == "operating")).filter (fun r => r.category == c)).length

/-- Ascending sort of a rational series (what pandas quantile interpolates
over). -/
def sortQ (xs : List ℚ) : List ℚ :=
  List.insertionSort (fun a b => a ≤ b) xs

/-- pandas `Series.quantile(q)` with the default linear interpolation: with
sorted values `v` of length `n`, position `h = q * (n - 1)`, it returns
`v[i] + (h - i) * (v[i+1] - v[i])` where `i = floor h` (the last term
dropped when `i + 1` is out of range). -/
def quantile (xs : List ℚ) (q : ℚ) : ℚ :=
  let v := sortQ xs
  let n := v.length
  let h : ℚ := q * ((n : ℚ) - 1)
  let i : Nat := (Int.floor h).toNat
  let g : ℚ := h - (i : ℚ)
  let vi := v.getD i 0
  let vi1 := v.getD (i + 1) vi
  vi + g * (vi1 - vi)

/-- `df_life = df[df["lifespan_days"] > 0].copy()`: the pandas mask is
`false` on `NaN`, so rows with a missing date are dropped along with the
non-positive lifespans. -/
def df_life (df : List Row) : List Row :=
  df.filter (fun r => match r.lifespan_days with
    | some d => decide (0 < d)
    | none => false)

/-- `df_life["lifespan_years"] = df_life["lifespan_days"] / 365`.  The
column is only ever read on rows of `df_life`, where `lifespan_days` is
present; the `none` branch is never reached there. -/
def Row.lifespan_years (r : Row) : ℚ :=
  match r.lifespan_days with
  | some d => (d : ℚ) / 365
  | none => 0

/-- The groups of `df_life.groupby("status")`: one per distinct status value
occurring in `df_life`. -/
def life_statuses (df : List Row) : List String :=
  ((df_life df).map Row.status).dedup

/-- The `lifespan_years` series of one status group of `df_life`. -/
def group_lifespans (df : List Row) (s : String) : List ℚ :=
  ((df_life df).filter (fun r => r.status == s)).map Row.lifespan_years

/-- `upper_fences = Q3 + (1.5 * IQR)` per status group, with
`Q1 = grouped.quantile(0.25)`, `Q3 = grouped.quantile(0.75)`,
`IQR = Q3 - Q1`. -/
def upper_fence (df : List Row) (s : String) : ℚ :=
  let q1 := quantile (group_lifespans df s) (1/4)
  let q3 := quantile (group_lifespans df s) (3/4)
  q3 + 3/2 * (q3 - q1)

/-- `max_limit = upper_fences.max()`; `none` models the `NaN` that pandas
returns when `df_life` is empty and there are no groups. -/
def max_limit (df : List Row) : Option ℚ :=
  ((life_statuses df).map (upper_fence df)).max?

/-- `zoom_limit = max_limit + 1`. -/
def zoom_limit (df : List Row) : ℚ :=
  (max_limit df).getD 0 + 1

/-- The y-axis configuration applied to the lifespan figure. -/
inductive YAxis where
  | autorange
  | linearRange (lo hi : ℚ)
deriving DecidableEq, Repr

/-- The lifespan box plot: its data and its y-axis setting. -/
structure LifespanFig where
  data : List Row
  yaxis : YAxis
deriving DecidableEq, Repr

/-- `fig_lifespan = px.box(df_life, ...)` followed by the smart-scale logic:
autorange when the checkbox is checked, otherwise
`yaxis_range=[0, zoom_limit]` on a linear axis. -/
def fig_lifespan (df : List Row) (show_outliers : Bool) : LifespanFig :=
  { data := df_life df
    yaxis := if show_outliers then YAxis.autorange else YAxis.linearRange 0 (zoom_limit df) }

/-- The lifespan-vs-funding scatter: its data. -/
structure ScatterFig where
  data : List Row
deriving DecidableEq, Repr

/-- `fig_money_time = px.scatter(df_life, ...)`. -/
def fig_money_time (df : List Row) : ScatterFig :=
  { data := df_life df }

/-- `target_statuses = ["operating", "acquired", "ipo", "closed"]`. -/
def target_statuses : List String := ["operating", "acquired", "ipo", "closed"]

/-- `df_timing = df[df["status"].isin(target_statuses)].copy()`, then the
`days_to_first_funding` column, then
`df_timing = df_timing[df_timing["days_to_first_funding"] >= 0]` (the mask
is `false` on `NaN`, so rows with a missing date are dropped). -/
def df_timing (df : List Row) : List Row :=
  (df.filter (fun r => target_statuses.contains r.status)).filter
    (fun r => match r.days_to_first_funding with
      | some d => decide (0 ≤ d)
      | none => false)

/-- `series.value_counts().nlargest(n).index`: the first `n` values of the
count-descending value-counts table. -/
def topVals (n : Nat) (xs : List String) : List String :=
  ((value_counts xs).take n).map Prod.fst

/-- `top_countries = df["country_code"].value_counts().nlargest(10).index`. -/
def top_countries (df : List Row) : List String :=
  topVals 10 (df.map Row.country_code)

/-- `top_categories = df["category"].value_counts().nlargest(10).index`. -/
def top_categories (df : List Row) : List String :=
  topVals 10 (df.map Row.category)

/-- `df_heatmap = df[df["country_code"].isin(top_countries) &
df["category"].isin(top_categories)]`. -/
def df_heatmap (df : List Row) : List Row :=
  df.filter (fun r =>
    (top_countries df).contains r.country_code && (top_categories df).contains r.category)

/-- The index of `counts = df_heatmap.groupby(["country_code","category"]).size()`:
the (country, category) pairs present in `df_heatmap`. -/
def heatmap_cells (df : List Row) : List (String × String) :=
  ((df_heatmap df).map (fun r => (r.country_code, r.category))).dedup

/-- The size of one groupby cell of `df_heatmap`. -/
def cell_count (df : List Row) (p : String × String) : Nat :=
  ((df_heatmap df).filter (fun r => r.country_code == p.1 && r.category == p.2)).length

/-- The values of `counts`, as rationals for the quantile. -/
def cell_counts (df : List Row) : List ℚ :=
  (heatmap_cells df).map (fun p => (cell_count df p : ℚ))

/-- `z_max = counts.quantile(0.95)`. -/
def z_max (df : List Row) : ℚ :=
  quantile (cell_counts df) (19/20)

/-- The country-vs-industry heatmap: its data and its `range_color`. -/
structure HeatmapFig where
  data : List Row
  range_color : ℚ × ℚ
deriving DecidableEq, Repr

/-- `fig_heatmap = px.density_heatmap(df_heatmap, ..., range_color=[0, z_max])`. -/
def fig_heatmap (df : List Row) : HeatmapFig :=
  { data := df_heatmap df
    range_color := (0, z_max df) }

/-- The derived tables the script builds from the loaded dataframe. -/
structure DerivedTables where
  statusCounts : List (String × Nat)
  survival : List SurvivalRow
  timing : List Row
  life : List Row
deriving DecidableEq, Repr

/-- All derived tables, as a function of the loaded dataframe alone. -/
def derived_tables (df : List Row) : DerivedTables :=
  { statusCounts := status_counts df
    survival := survival_df df
    timing := df_timing df
    life := df_life df }

/-- One full execution of the script body on a loaded dataframe and a state
of the Show Outliers checkbox. -/
structure ScriptRun where
  tables : DerivedTables
  lifespanFig : LifespanFig
  moneyTimeFig : ScatterFig
  heatmapFig : HeatmapFig
deriving DecidableEq, Repr

/-- The analyses of the script, re-executed from scratch on each
interaction: a pure function of the dataframe and the checkbox state. -/
def run_script (df : List Row) (show_outliers : Bool) : ScriptRun :=
  { tables := derived_tables df
    lifespanFig := fig_lifespan df show_outliers
    moneyTimeFig := fig_money_time df
    heatmapFig := fig_heatmap df }

/-- Outcome of `pd.read_csv`: the parsed dataframe, or an exception. -/
inductive ReadError where
  | fileNotFound
  | otherError (msg : String)
deriving DecidableEq, Repr

/-- `load_data`: returns the dataframe on success; catches
`FileNotFoundError`, returning `None`; any other exception propagates
uncaught.  The column preprocessing (to_datetime with coerce, the derived
day columns) is carried by the `Row` fields and the functions on them. -/
def load_data (read : Except ReadError (List Row)) : Except ReadError (Option (List Row)) :=
  match read with
  | .ok raw => .ok (some raw)
  | .error ReadError.fileNotFound => .ok none
  | .error e => .error e

/-- What the script displays: `st.error` plus `st.stop()` with no chart
produced, or the rendered dashboard. -/
inductive ScriptOutcome where
  | errorStop
  | rendered (run : ScriptRun)
deriving DecidableEq, Repr

/-- The top-level script: load the data; if it is `None`, display the error
and stop before any chart; otherwise run every analysis unconditionally.
An exception `load_data` did not catch propagates. -/
def script (read : Except ReadError (List Row)) (show_outliers : Bool) :
    Except ReadError ScriptOutcome :=
  match load_data read with
  | .error e => .error e
  | .ok none => .ok ScriptOutcome.errorStop
  | .ok (some df) => .ok (ScriptOutcome.rendered (run_script df show_outliers))

/-- A row constructor for the concrete dataframes used to instantiate the
theorems. -/
def sampleRow (nm st cat cc : String) (fd ff lf : Option Int) : Row :=
  { name := nm, status := st, category := cat, country_code := cc,
    funding_total_usd := 100, funding_rounds := 1,
    founded_at := fd, first_funding_at := ff, last_funding_at := lf }

/-- An operating row with a one-year lifespan and a 10-day funding delay. -/
def sampleRowA : Row := sampleRow "a" "operating" "Tech" "USA" (some 0) (some 10) (some 365)

/-- A closed row with a zero lifespan and a negative funding delay. -/
def sampleRowB : Row := sampleRow "b" "closed" "Tech" "USA" (some 0) (some (-5)) (some 0)

/-- An acquired row with a missing first-funding date. -/
def sampleRowC : Row := sampleRow "c" "acquired" "Bio" "GBR" (some 0) none (some 730)

/-- An ipo row with a missing founding date. -/
def sampleRowD : Row := sampleRow "d" "ipo" "Bio" "USA" none (some 3) (some 5)

/-- A small concrete dataframe exercising the filters. -/
def sampleDf : List Row := [sampleRowA, sampleRowB, sampleRowC, sampleRowD]

/-- The survival row the sample dataframe produces for "Tech". -/
def sampleTechRow : SurvivalRow :=
  { Category := "Tech", Total_Startups := 2, Operating_Count := 1, Survival_Rate := 50 }

/-- The survival row the sample dataframe produces for "Bio". -/
def sampleBioRow : SurvivalRow :=
  { Category := "Bio", Total_Startups := 2, Operating_Count := 0, Survival_Rate := 0 }

theorem mem_value_counts {xs : List String} {p : String × Nat} :
    p ∈ value_counts xs ↔ p.1 ∈ xs ∧ p.2 = countVal xs p.1 := by
  unfold value_counts
  rw [(List.perm_insertionSort _ _).mem_iff, List.mem_map]
  constructor
  · rintro ⟨c, hc, rfl⟩
    exact ⟨List.mem_dedup.mp hc, rfl⟩
  · rintro ⟨h1, h2⟩
    obtain ⟨a, b⟩ := p
    exact ⟨a, List.mem_dedup.mpr h1, by simp only at h2; rw [h2]⟩

theorem countVal_map (f : Row → String) (df : List Row) (c : String) :
    countVal (df.map f) c = (df.filter (fun r => f r == c)).length := by
  unfold countVal
  induction df with
  | nil => rfl
  | cons r t ih =>
    simp only [List.map_cons, List.filter_cons]
    cases h : (f r == c) <;> simp [h, ih]

theorem find?_value_counts_of_mem {xs : List String} {c : String}
    (h : c ∈ xs) :
    (value_counts xs).find? (fun q => q.1 == c) = some (c, countVal xs c) := by
  have hsome : ((value_counts xs).find? (fun q => q.1 == c)).isSome := by
    rw [List.find?_isSome]
    exact ⟨(c, countVal xs c), mem_value_counts.mpr ⟨h, rfl⟩, by simp⟩
  obtain ⟨a, ha⟩ := Option.isSome_iff_exists.mp hsome
  obtain ⟨h1, h2⟩ := mem_value_counts.mp (List.mem_of_find?_eq_some ha)
  have hc : a.1 = c := by simpa using List.find?_some ha
  rw [ha]
  obtain ⟨a1, a2⟩ := a
  simp only at hc h2
  rw [hc] at h2 ⊢
  rw [h2]

theorem find?_value_counts_of_notMem {xs : List String} {c : String}
    (h : c ∉ xs) :
    (value_counts xs).find? (fun q => q.1 == c) = none := by
  rw [List.find?_eq_none]
  intro p hp hpc
  obtain ⟨h1, _⟩ := mem_value_counts.mp hp
  have hc : p.1 = c := by simpa using hpc
  exact h (hc ▸ h1)

theorem operating_lookup (df : List Row) (c : String) :
    ((((operating_counts df).find? (fun q => q.1 == c)).map Prod.snd).getD 0)
      = operating_count df c := by
  unfold operating_counts
  by_cases h : c ∈ (df.filter (fun r => r.status == "operating")).map Row.category
  · rw [find?_value_counts_of_mem h]
    simpa using (countVal_map Row.category _ c)
  · rw [find?_value_counts_of_notMem h]
    show 0 = operating_count df c
    symm
    unfold operating_count
    rw [List.length_eq_zero, List.filter_eq_nil_iff]
    intro r hr hrc
    exact h (List.mem_map.mpr ⟨r, hr, by simpa using hrc⟩)

theorem survival_row_spec {df : List Row} {row : SurvivalRow}
    (h : row ∈ survival_df df) :
    row.Category ∈ df.map Row.category ∧
    row.Total_Startups = total_startups df row.Category ∧
    row.Operating_Count = operating_count df row.Category ∧
    row.Survival_Rate = (row.Operating_Count : ℚ) / (row.Total_Startups : ℚ) * 100 := by
  obtain ⟨p, hp, rfl⟩ := List.mem_map.mp h
  obtain ⟨h1, h2⟩ := mem_value_counts.mp hp
  refine ⟨h1, ?_, ?_, ?_⟩
  · show p.2 = total_startups df p.1
    rw [h2]
    exact countVal_map Row.category df p.1
  · show _ = operating_count df p.1
    exact operating_lookup df p.1
  · rfl

/-- C1: For every category value occurring in the loaded dataframe,
`survival_df` has a row for it whose `Survival_Rate` equals 100 times the
number of rows of that category with status "operating" divided by the
total number of rows of that category; a category with no operating rows
gets `Operating_Count` 0 via the left merge and the fillna, and hence
`Survival_Rate` 0. -/
theorem survival_rate_correct (df : List Row) (c : String)
    (hc : c ∈ df.map Row.category) :
    ∃ row ∈ survival_df df, row.Category = c ∧
      row.Total_Startups = total_startups df c ∧
      row.Operating_Count = operating_count df c ∧
      row.Survival_Rate = 100 * (operating_count df c : ℚ) / (total_startups df c : ℚ) ∧
      (operating_count df c = 0 → row.Operating_Count = 0 ∧ row.Survival_Rate = 0) := by
  have hp : (c, countVal (df.map Row.category) c) ∈ category_totals df :=
    mem_value_counts.mpr ⟨hc, rfl⟩
  have hmem : _ ∈ survival_df df :=
    List.mem_map.mpr ⟨(c, countVal (df.map Row.category) c), hp, rfl⟩
  obtain ⟨-, ht, ho, hr⟩ := survival_row_spec hmem
  refine ⟨_, hmem, rfl, ht, ho, ?_, ?_⟩
  · rw [hr, ho, ht]
    ring
  · intro h0
    refine ⟨ho.trans h0, ?_⟩
    rw [hr, ho, h0]
    norm_num

/-- Witness for `survival_rate_correct`: the category "Tech" of the sample
dataframe, with 2 rows of which 1 is operating. -/
theorem survival_rate_correct_witness :
    ("Tech" ∈ sampleDf.map Row.category) ∧
    ∃ row ∈ survival_df sampleDf, row.Category = "Tech" ∧
      row.Total_Startups = total_startups sampleDf "Tech" ∧
      row.Operating_Count = operating_count sampleDf "Tech" ∧
      row.Survival_Rate =
        100 * (operating_count sampleDf "Tech" : ℚ) / (total_startups sampleDf "Tech" : ℚ) ∧
      (operating_count sampleDf "Tech" = 0 →
        row.Operating_Count = 0 ∧ row.Survival_Rate = 0) :=
  ⟨by decide, survival_rate_correct sampleDf "Tech" (by decide)⟩

/-- C4: The survival rate is a percentage: every row of `survival_df` has
`0 ≤ Survival_Rate ≤ 100`, because the count of operating rows of a
category never exceeds the total count of rows of that category. -/
theorem survival_rate_percentage (df : List Row) (row : SurvivalRow)
    (h : row ∈ survival_df df) :
    0 ≤ row.Survival_Rate ∧ row.Survival_Rate ≤ 100 := by
  obtain ⟨h1, ht, ho, hr⟩ := survival_row_spec h
  have hle : operating_count df row.Category ≤ total_startups df row.Category := by
    unfold operating_count total_startups
    rw [← List.countP_eq_length_filter, ← List.countP_eq_length_filter,
      List.countP_filter]
    apply List.countP_mono_left
    intro r _ hp
    exact (Bool.and_eq_true_iff.mp hp).1
  have hpos : 0 < total_startups df row.Category := by
    obtain ⟨r, hr', hrc⟩ := List.mem_map.mp h1
    have hmem : r ∈ df.filter (fun x => x.category == row.Category) :=
      List.mem_filter.mpr ⟨hr', by simp [hrc]⟩
    exact List.length_pos.mpr (List.ne_nil_of_mem hmem)
  have hposQ : (0:ℚ) < (total_startups df row.Category : ℚ) := by exact_mod_cast hpos
  rw [hr, ho, ht]
  constructor
  · have h0 : (0:ℚ) ≤ (operating_count df row.Category : ℚ) / (total_startups df row.Category : ℚ) :=
      div_nonneg (by positivity) (le_of_lt hposQ)
    have := mul_le_mul_of_nonneg_right h0 (by norm_num : (0:ℚ) ≤ 100)
    linarith [mul_nonneg h0 (by norm_num : (0:ℚ) ≤ 100)]
  · have hdiv : (operating_count df row.Category : ℚ) / (total_startups df row.Category : ℚ) ≤ 1 :=
      (div_le_one hposQ).mpr (by exact_mod_cast hle)
    calc (operating_count df row.Category : ℚ) / (total_startups df row.Category : ℚ) * 100
        ≤ 1 * 100 := mul_le_mul_of_nonneg_right hdiv (by norm_num)
      _ = 100 := by norm_num

/-- Witness for `survival_rate_percentage`: the Tech row of the sample
dataframe has rate 50, which is between 0 and 100. -/
theorem survival_rate_percentage_witness :
    (sampleTechRow ∈ survival_df sampleDf) ∧
    (0 ≤ sampleTechRow.Survival_Rate ∧ sampleTechRow.Survival_Rate ≤ 100) :=
  ⟨by decide, survival_rate_percentage sampleDf sampleTechRow (by decide)⟩

/-- C7: Every row of `survival_df` comes from `value_counts` of the
category column, so its `Total_Startups` is at least 1 and the divisor of
the rate computation is nonzero. -/
theorem survival_total_nonzero (df : List Row) (row : SurvivalRow)
    (h : row ∈ survival_df df) :
    1 ≤ row.Total_Startups ∧ (row.Total_Startups : ℚ) ≠ 0 := by
  obtain ⟨h1, ht, -, -⟩ := survival_row_spec h
  have hpos : 0 < total_startups df row.Category := by
    obtain ⟨r, hr', hrc⟩ := List.mem_map.mp h1
    have hmem : r ∈ df.filter (fun x => x.category == row.Category) :=
      List.mem_filter.mpr ⟨hr', by simp [hrc]⟩
    exact List.length_pos.mpr (List.ne_nil_of_mem hmem)
  rw [ht]
  exact ⟨hpos, by exact_mod_cast Nat.pos_iff_ne_zero.mp hpos⟩

/-- Witness for `survival_total_nonzero`: the Bio row of the sample
dataframe has total 2. -/
theorem survival_total_nonzero_witness :
    (sampleBioRow ∈ survival_df sampleDf) ∧
    (1 ≤ sampleBioRow.Total_Startups ∧ (sampleBioRow.Total_Startups : ℚ) ≠ 0) :=
  ⟨by decide, survival_total_nonzero sampleDf sampleBioRow (by decide)⟩

/-- C3: The only failure handling is the missing-file check.  On
`FileNotFoundError`, `load_data` returns `None`, the script displays the
error and stops before producing any chart; any other exception is not
caught and propagates; on a successful read the script proceeds to all
analyses unconditionally. -/
theorem script_error_handling (read : Except ReadError (List Row)) (b : Bool) :
    script read b =
      match read with
      | Except.error ReadError.fileNotFound => Except.ok ScriptOutcome.errorStop
      | Except.error e => Except.error e
      | Except.ok df => Except.ok (ScriptOutcome.rendered (run_script df b)) := by
  cases read with
  | ok df => rfl
  | error e => cases e <;> rfl

/-- C5: `df_timing` keeps exactly the rows of the dataframe whose status is
one of the four target statuses and whose `days_to_first_funding` is present
and non-negative; rows with a negative or missing difference are excluded.
On every row with both dates present the derived metric is the day
difference `first_funding_at - founded_at`. -/
theorem df_timing_spec (df : List Row) (r : Row) :
    (r ∈ df_timing df ↔
      r ∈ df ∧ r.status ∈ target_statuses ∧
        ∃ d : Int, r.days_to_first_funding = some d ∧ 0 ≤ d) ∧
    (∀ f b : Int, r.first_funding_at = some f → r.founded_at = some b →
      r.days_to_first_funding = some (f - b)) := by
  constructor
  · unfold df_timing
    rw [List.mem_filter, List.mem_filter]
    constructor
    · rintro ⟨⟨hdf, hst⟩, hd⟩
      refine ⟨hdf, by simpa using hst, ?_⟩
      cases hdd : r.days_to_first_funding with
      | some d =>
        rw [hdd] at hd
        exact ⟨d, rfl, of_decide_eq_true hd⟩
      | none => rw [hdd] at hd; exact absurd hd (by simp)
    · rintro ⟨hdf, hst, d, hd, hd0⟩
      refine ⟨⟨hdf, by simpa using hst⟩, ?_⟩
      rw [hd]
      exact decide_eq_true hd0
  · intro f b hf hb
    unfold Row.days_to_first_funding
    rw [hf, hb]

/-- Witness for `df_timing_spec`: the operating sample row, with a 10-day
non-negative funding delay, is kept by the timing filter. -/
theorem df_timing_spec_witness : sampleRowA ∈ df_timing sampleDf :=
  (df_timing_spec sampleDf sampleRowA).1.mpr
    ⟨by decide, by decide, 10, by decide, by decide⟩

/-- C8: Both lifespan charts draw exactly the rows of `df_life`: a row
appears there iff both dates are present and the last funding date is
strictly after the founding date; startups whose last funding is on or
before founding, or with a missing date, appear in neither lifespan chart. -/
theorem df_life_spec (df : List Row) (b : Bool) (r : Row) :
    ((fig_lifespan df b).data = df_life df ∧ (fig_money_time df).data = df_life df) ∧
    (r ∈ df_life df ↔
      r ∈ df ∧ ∃ l f : Int, r.last_funding_at = some l ∧ r.founded_at = some f ∧ f < l) := by
  refine ⟨⟨rfl, rfl⟩, ?_⟩
  unfold df_life
  rw [List.mem_filter]
  constructor
  · rintro ⟨hdf, hd⟩
    refine ⟨hdf, ?_⟩
    unfold Row.lifespan_days at hd
    cases hl : r.last_funding_at with
    | some l =>
      cases hf : r.founded_at with
      | some f =>
        rw [hl, hf] at hd
        simp only [decide_eq_true_eq] at hd
        exact ⟨l, f, rfl, rfl, by omega⟩
      | none => rw [hl, hf] at hd; exact absurd hd (by simp)
    | none => rw [hl] at hd; exact absurd hd (by simp)
  · rintro ⟨hdf, l, f, hl, hf, hlf⟩
    refine ⟨hdf, ?_⟩
    unfold Row.lifespan_days
    rw [hl, hf]
    simp only [decide_eq_true_eq]
    omega

/-- Witness for `df_life_spec`: the operating sample row, founded on day 0
with last funding on day 365, is in `df_life`. -/
theorem df_life_spec_witness : sampleRowA ∈ df_life sampleDf :=
  (df_life_spec sampleDf true sampleRowA).2.mpr ⟨by decide, 365, 0, rfl, rfl, by decide⟩

/-- C6: The script is a pure function of the loaded dataframe and the
checkbox state, so two runs with the same inputs are identical; toggling
the Show Outliers checkbox changes only the y-axis configuration of the
lifespan figure: the derived tables, the lifespan figure data and the other
figures agree across any two checkbox states, and two runs are equal
exactly when that y-axis setting is equal. -/
theorem script_pure_checkbox_isolated (df : List Row) (b1 b2 : Bool) :
    (run_script df b1).tables = (run_script df b2).tables ∧
    (run_script df b1).lifespanFig.data = (run_script df b2).lifespanFig.data ∧
    (run_script df b1).moneyTimeFig = (run_script df b2).moneyTimeFig ∧
    (run_script df b1).heatmapFig = (run_script df b2).heatmapFig ∧
    (run_script df b1 = run_script df b2 ↔
      (run_script df b1).lifespanFig.yaxis = (run_script df b2).lifespanFig.yaxis) := by
  refine ⟨rfl, rfl, rfl, rfl, ?_, ?_⟩
  · intro h
    rw [h]
  · intro h
    have hfig : fig_lifespan df b1 = fig_lifespan df b2 := by
      unfold fig_lifespan
      rw [LifespanFig.mk.injEq]
      exact ⟨rfl, h⟩
    unfold run_script
    rw [hfig]

/-- `List.max?` of a nonempty list of rationals is some element that bounds
the whole list. -/
theorem max?_spec {l : List ℚ} (hne : l ≠ []) :
    ∃ m, l.max? = some m ∧ m ∈ l ∧ ∀ x ∈ l, x ≤ m := by
  obtain ⟨a, ha⟩ := List.exists_mem_of_ne_nil l hne
  obtain ⟨m, hm⟩ := Option.isSome_iff_exists.mp (List.isSome_max?_of_mem ha)
  exact ⟨m, hm, List.max?_mem (fun a b => max_choice a b) hm,
    fun x hx => (List.max?_le_iff (fun a b c => max_le_iff) hm).1 (le_refl m) x hx⟩

/-- C2: With the Show Outliers checkbox unchecked and at least one row in
`df_life`, the lifespan box plot y-axis is the linear range `[0, L + 1]`
where `L` is the maximum over all status groups of the per-group upper
fence `Q3 + 1.5 * (Q3 - Q1)` of the group's `lifespan_years`: `L` is the
fence of some group and bounds the fence of every group. -/
theorem zoom_limit_spec (df : List Row) (h : df_life df ≠ []) :
    ∃ L : ℚ, max_limit df = some L ∧
      L ∈ (life_statuses df).map (upper_fence df) ∧
      (∀ s ∈ life_statuses df, upper_fence df s ≤ L) ∧
      (fig_lifespan df false).yaxis = YAxis.linearRange 0 (L + 1) := by
  have hne : life_statuses df ≠ [] := by
    obtain ⟨r, hr⟩ := List.exists_mem_of_ne_nil _ h
    exact List.ne_nil_of_mem (List.mem_dedup.mpr (List.mem_map_of_mem Row.status hr))
  have hmapne : (life_statuses df).map (upper_fence df) ≠ [] := by
    obtain ⟨s, hs⟩ := List.exists_mem_of_ne_nil _ hne
    exact List.ne_nil_of_mem (List.mem_map_of_mem _ hs)
  obtain ⟨L, hL, hmem, hub⟩ := max?_spec hmapne
  refine ⟨L, hL, hmem, ?_, ?_⟩
  · intro s hs
    exact hub _ (List.mem_map_of_mem _ hs)
  · have hz : zoom_limit df = L + 1 := by
      unfold zoom_limit
      rw [show max_limit df = some L from hL]
      rfl
    show YAxis.linearRange 0 (zoom_limit df) = YAxis.linearRange 0 (L + 1)
    rw [hz]

/-- Witness for `zoom_limit_spec`: the sample dataframe has a nonempty
`df_life`, so the zoomed y-axis range is `[0, L + 1]` for the maximal upper
fence `L`. -/
theorem zoom_limit_spec_witness :
    (df_life sampleDf ≠ []) ∧
    ∃ L : ℚ, max_limit sampleDf = some L ∧
      L ∈ (life_statuses sampleDf).map (upper_fence sampleDf) ∧
      (∀ s ∈ life_statuses sampleDf, upper_fence sampleDf s ≤ L) ∧
      (fig_lifespan sampleDf false).yaxis = YAxis.linearRange 0 (L + 1) :=
  ⟨by decide, zoom_limit_spec sampleDf (by decide)⟩

/-- `nlargest(n)` of a value-counts table keeps at most `n` values. -/
theorem topVals_length (n : Nat) (xs : List String) : (topVals n xs).length ≤ n := by
  unfold topVals
  rw [List.length_map, List.length_take]
  exact min_le_left n _

/-- `value_counts` is sorted by count in descending order. -/
theorem value_counts_sorted (xs : List String) :
    List.Sorted (fun a b : String × Nat => b.2 ≤ a.2) (value_counts xs) := by
  haveI : IsTotal (String × Nat) (fun a b => b.2 ≤ a.2) := ⟨fun a b => Nat.le_total b.2 a.2⟩
  haveI : IsTrans (String × Nat) (fun a b => b.2 ≤ a.2) := ⟨fun a b c h1 h2 => Nat.le_trans h2 h1⟩
  exact List.sorted_insertionSort _ _

/-- The values kept by `nlargest(n)` are the most frequent ones: any value
of the series left out of the top-`n` list occurs at most as often as any
value in it. -/
theorem topVals_freq {n : Nat} {xs : List String} {c c2 : String}
    (hc : c ∈ topVals n xs) (h2 : c2 ∈ xs) (hn : c2 ∉ topVals n xs) :
    countVal xs c2 ≤ countVal xs c := by
  unfold topVals at hc hn
  have hsplit : value_counts xs = (value_counts xs).take n ++ (value_counts xs).drop n :=
    (List.take_append_drop n _).symm
  have hpair : List.Pairwise (fun a b : String × Nat => b.2 ≤ a.2)
      ((value_counts xs).take n ++ (value_counts xs).drop n) := by
    rw [← hsplit]
    exact value_counts_sorted xs
  obtain ⟨-, -, hcross⟩ := List.pairwise_append.mp hpair
  obtain ⟨p, hp, hpc⟩ := List.mem_map.mp hc
  obtain ⟨hp1, hp2⟩ := mem_value_counts.mp (List.mem_of_mem_take hp)
  have hq : ((c2, countVal xs c2) : String × Nat) ∈ value_counts xs :=
    mem_value_counts.mpr ⟨h2, rfl⟩
  have hqd : ((c2, countVal xs c2) : String × Nat) ∈ (value_counts xs).drop n := by
    rcases List.mem_append.mp (hsplit ▸ hq) with htake | hdrop
    · exact absurd (List.mem_map.mpr ⟨_, htake, rfl⟩) hn
    · exact hdrop
  have hle := hcross p hp _ hqd
  rw [← hpc, ← hp2]
  exact hle

/-- C9: The heatmap restricts the data to the 10 most frequent country
codes and the 10 most frequent categories (each top-10 list has at most 10
values and any value of the column outside it occurs at most as often as
any value inside it), and its color scale is `range_color = [0, z_max]`
with `z_max` the 0.95 quantile of the per-(country, category) cell counts,
so larger cells render at the maximum color. -/
theorem fig_heatmap_spec (df : List Row) (r : Row) :
    (r ∈ (fig_heatmap df).data ↔
      r ∈ df ∧ r.country_code ∈ top_countries df ∧ r.category ∈ top_categories df) ∧
    (fig_heatmap df).range_color = (0, quantile (cell_counts df) (19/20)) ∧
    ((top_countries df).length ≤ 10 ∧
      ∀ c ∈ top_countries df, ∀ c2 ∈ df.map Row.country_code, c2 ∉ top_countries df →
        countVal (df.map Row.country_code) c2 ≤ countVal (df.map Row.country_code) c) ∧
    ((top_categories df).length ≤ 10 ∧
      ∀ c ∈ top_categories df, ∀ c2 ∈ df.map Row.category, c2 ∉ top_categories df →
        countVal (df.map Row.category) c2 ≤ countVal (df.map Row.category) c) := by
  refine ⟨?_, rfl,
    ⟨topVals_length 10 _, fun c hc c2 h2 hn => topVals_freq hc h2 hn⟩,
    ⟨topVals_length 10 _, fun c hc c2 h2 hn => topVals_freq hc h2 hn⟩⟩
  show r ∈ df_heatmap df ↔ _
  unfold df_heatmap
  rw [List.mem_filter]
  constructor
  · rintro ⟨hdf, hcond⟩
    rw [Bool.and_eq_true] at hcond
    exact ⟨hdf, by simpa using hcond.1, by simpa using hcond.2⟩
  · rintro ⟨hdf, h1, h2⟩
    refine ⟨hdf, ?_⟩
    rw [Bool.and_eq_true]
    exact ⟨by simpa using h1, by simpa using h2⟩

/-- Witness for `fig_heatmap_spec`: the operating sample row is in the
heatmap data, its country and category being in the top-10 lists of the
sample dataframe. -/
theorem fig_heatmap_spec_witness : sampleRowA ∈ (fig_heatmap sampleDf).data :=
  (fig_heatmap_spec sampleDf sampleRowA).1.mpr ⟨by decide, by decide, by decide⟩
